import Mathlib

/-!
Verification development for a GameBoy emulator core. The definitions below
are a shallow embedding of the Rust sources (cpu.rs, memory.rs, gpu.rs):
machine integers are modelled as `Nat` with explicit truncation (`% 256`,
`% 65536`) exactly where the u8/u16 operations wrap (release-mode semantics
for the wrapping arithmetic), memory is a byte-valued function on addresses,
and the fatal decode failures (the `todo!`/panic arms of `decode`) are
modelled as `Except.error`.
-/

namespace GB

/-- Flag bit positions, from `enum Flag` in cpu.rs (Z = 7, N = 6, H = 5, C = 4). -/
inductive Flag where
  | Z
  | N
  | H
  | C
deriving DecidableEq

/-- Bit index of a flag inside the low byte of AF (the `repr(u8)` values). -/
def Flag.bit : Flag → Nat
  | .Z => 7
  | .N => 6
  | .H => 5
  | .C => 4

/-- Instruction variants, from `enum Instruction` in cpu.rs. The 0xCB-prefixed
form is the `PREFIX` variant of the source, named `PrefixCB` here. -/
inductive Instruction where
  | ADC_A_n8
  | LD_H_HL
  | Call_Z_a16 (z : Bool)
  | DEC_BC
  | INC_BC
  | LD_HL_E
  | NOP
  | LD_SP_n16
  | XOR_A_A
  | LD_HL_n16
  | LD_HL_A
  | LD_HL_DEC_A
  | PrefixCB
  | JR_NZ_e8 (z : Bool)
  | LD_C_n8
  | LD_A_n8
  | LDH_C_A
  | INC_C
  | LDH_a8_A
  | LD_B_A
  | PUSH_HL
  | LD_DE_n16
deriving DecidableEq

/-- Fatal decode failure: the `todo!("Unimplemented opcode ...")` arm and the
two `panic!("Unknown CB...")` arms of cpu.rs, carrying the offending value. -/
inductive EmuError where
  | UnimplementedOpcode (value : Nat)
deriving DecidableEq

/-- A named address range from memory.rs (`struct Range`); the source field
`end` is a Lean keyword, rendered `stop`. -/
structure MRange where
  start : Nat
  stop : Nat

/-- The seven named ranges of memory.rs (`struct MemoryMap`). -/
structure MemoryMap where
  rom : MRange
  v_ram : MRange
  external_ram : MRange
  work_ram : MRange
  oam : MRange
  io : MRange
  h_ram : MRange

/-- The fixed map built by `Memory::new` in memory.rs. -/
def memoryMap : MemoryMap :=
  { rom := ⟨0x0000, 0x7FFF⟩
    v_ram := ⟨0x8000, 0x9FFF⟩
    external_ram := ⟨0xA000, 0xBFFF⟩
    work_ram := ⟨0xC000, 0xDFFF⟩
    oam := ⟨0xFE00, 0xFE9F⟩
    io := ⟨0xFF00, 0xFF7F⟩
    h_ram := ⟨0xFF80, 0xFFFE⟩ }

/-- The architectural state: the six register pairs of `struct Registers`
plus the 65536-byte memory of `struct Memory`, as a byte-valued function. -/
structure CPUState where
  af : Nat
  bc : Nat
  de : Nat
  hl : Nat
  sp : Nat
  pc : Nat
  mem : Nat → Nat

/-- `CPU::new` from cpu.rs: every register pair starts at zero. -/
def CPU.new (mem : Nat → Nat) : CPUState :=
  { af := 0, bc := 0, de := 0, hl := 0, sp := 0, pc := 0, mem := mem }

/-- `get_high_byte`: `((bytes & 0xFF00) >> 8) as u8`. -/
def get_high_byte (bytes : Nat) : Nat := (bytes &&& 0xFF00) >>> 8

/-- `get_low_byte`: `(bytes & 0x00FF) as u8`. -/
def get_low_byte (bytes : Nat) : Nat := bytes &&& 0x00FF

/-- `replace_high_byte`: `(bytes & 0x00FF) | ((new_byte as u16) << 8)`. -/
def replace_high_byte (bytes new_byte : Nat) : Nat :=
  (bytes &&& 0x00FF) ||| (new_byte <<< 8)

/-- `replace_low_byte`: `(bytes & 0xFF00) | (new_byte as u16)`. -/
def replace_low_byte (bytes new_byte : Nat) : Nat :=
  (bytes &&& 0xFF00) ||| new_byte

/-- `concat_bytes`: `((high as u16) << 8) | low as u16`. -/
def concat_bytes (high low : Nat) : Nat := (high <<< 8) ||| low

/-- The value computed by `get_flag`: `((af & (1 << flag)) >> flag) as u8`. -/
def get_flag_af (af : Nat) (f : Flag) : Nat :=
  (af &&& (1 <<< f.bit)) >>> f.bit

/-- `get_flag` from cpu.rs. -/
def get_flag (st : CPUState) (f : Flag) : Nat :=
  get_flag_af st.af f

/-- The AF value computed by `set_flag`: `flags = (af & 0x00FF) | (1 << flag)`
followed by `af |= flags`. -/
def set_flag_af (af : Nat) (f : Flag) : Nat :=
  af ||| ((af &&& 0x00FF) ||| (1 <<< f.bit))

/-- `set_flag` from cpu.rs. -/
def set_flag (st : CPUState) (f : Flag) : CPUState :=
  { st with af := set_flag_af st.af f }

/-- The AF value computed by `clear_flag`:
`(high_byte << 8) | ((flags | mask) ^ mask)` with `flags = af & 0x00FF`
and `mask = 1 << flag`. -/
def clear_flag_af (af : Nat) (f : Flag) : Nat :=
  ((get_high_byte af) <<< 8) ||| (((af &&& 0x00FF) ||| (1 <<< f.bit)) ^^^ (1 <<< f.bit))

/-- `clear_flag` from cpu.rs. -/
def clear_flag (st : CPUState) (f : Flag) : CPUState :=
  { st with af := clear_flag_af st.af f }

/-- Memory read `self.memory.memory[a as usize]` where `a` was computed in
u16 arithmetic; the cells hold bytes. -/
def read8 (st : CPUState) (a : Nat) : Nat := st.mem (a % 65536) % 256

/-- Memory write `self.memory.memory[a as usize] = v` for a u16 address. -/
def write8 (st : CPUState) (a v : Nat) : CPUState :=
  { st with mem := fun x => if x = a % 65536 then v % 256 else st.mem x }

/-- `get_cb_operand`: the 8-way operand selector {B,C,D,E,H,L,[HL],A}. -/
def get_cb_operand (st : CPUState) (value : Nat) : Nat :=
  if value = 0x0 then get_high_byte st.bc
  else if value = 0x1 then get_low_byte st.bc
  else if value = 0x2 then get_high_byte st.de
  else if value = 0x3 then get_low_byte st.de
  else if value = 0x4 then get_high_byte st.hl
  else if value = 0x5 then get_low_byte st.hl
  else if value = 0x6 then read8 st st.hl
  else if value = 0x7 then get_high_byte st.af
  else 0

/-- `replace_cb_operand`: writes back through the same 8-way selector. -/
def replace_cb_operand (st : CPUState) (operand value : Nat) : CPUState :=
  if operand = 0x0 then { st with bc := replace_high_byte st.bc value }
  else if operand = 0x1 then { st with bc := replace_low_byte st.bc value }
  else if operand = 0x2 then { st with de := replace_high_byte st.de value }
  else if operand = 0x3 then { st with de := replace_low_byte st.de value }
  else if operand = 0x4 then { st with hl := replace_high_byte st.hl value }
  else if operand = 0x5 then { st with hl := replace_low_byte st.hl value }
  else if operand = 0x6 then write8 st st.hl value
  else if operand = 0x7 then { st with af := replace_high_byte st.af value }
  else st

/-- The sequence of flag writes shared by the four CB rotate/shift cases:
Zero from the result, Carry from the shifted-out bit; cases 0 and 1 then
also clear Half-Carry and Subtract, cases 2 and 3 do not (`hn` false). -/
def cb_rot_flags (af result carry : Nat) (hn : Bool) : Nat :=
  let af1 := if result = 0 then set_flag_af af .Z else clear_flag_af af .Z
  let af2 := if carry = 1 then set_flag_af af1 .C else clear_flag_af af1 .C
  if hn then clear_flag_af (clear_flag_af af2 .H) .N else af2

/-- The 0xCB arm of `decode` before its final `pc += 2`: dispatch on the top
two bits of the following byte, then on its middle three bits. The source
panics on a sub-opcode outside the handled cases. Since `set_flag` and
`clear_flag` mutate only AF, each case is rendered as one AF-level flag
computation combined with the operand write-back, in source order (cases
0, 2, 3 write the operand back before the flags, case 1 after). -/
def decodeCB (st0 : CPUState) : Except EmuError CPUState :=
  let instruction := read8 st0 (st0.pc + 1)
  let prefix_opcode := (instruction &&& 0xC0) >>> 6
  if prefix_opcode = 0 then
    let cb_opcode := (instruction &&& 0x38) >>> 3
    let operand := get_cb_operand st0 (instruction &&& 0x7)
    if cb_opcode = 0x0 then
      let carry := (0x80 &&& operand) >>> 7
      let result := ((operand <<< 1) % 256) ||| carry
      let stR := replace_cb_operand st0 (instruction &&& 0x7) result
      .ok { stR with af := cb_rot_flags stR.af result carry true }
    else if cb_opcode = 0x1 then
      let carry := 0x01 &&& operand
      let result := (operand >>> 1) ||| carry
      .ok (replace_cb_operand
        { st0 with af := cb_rot_flags st0.af result carry true }
        (instruction &&& 0x7) result)
    else if cb_opcode = 0x2 then
      let carry := (0x80 &&& operand) >>> 7
      let result := (operand <<< 1) % 256
      let stR := replace_cb_operand st0 (instruction &&& 0x7) result
      .ok { stR with af := cb_rot_flags stR.af result carry false }
    else if cb_opcode = 0x3 then
      let carry := 0x01 &&& operand
      let result := operand >>> 1
      let stR := replace_cb_operand st0 (instruction &&& 0x7) result
      .ok { stR with af := cb_rot_flags stR.af result carry false }
    else
      .error (.UnimplementedOpcode cb_opcode)
  else if prefix_opcode = 0x1 then
    let bit_index := (instruction &&& 0x38) >>> 3
    let value := instruction &&& 0x7
    let operand := get_cb_operand st0 value
    let bit := (operand &&& (1 <<< bit_index)) >>> bit_index
    .ok { st0 with af := set_flag_af (clear_flag_af
      (if bit = 1 then set_flag_af st0.af .Z else clear_flag_af st0.af .Z) .N) .H }
  else
    .error (.UnimplementedOpcode prefix_opcode)

/-- `decode` from cpu.rs: one opcode's full effect on the state, returning
the `Instruction` that ran, or the fatal error of the unhandled arms. -/
def decode (st : CPUState) (opcode : Nat) : Except EmuError (CPUState × Instruction) :=
  if opcode = 0x00 then
    .ok ({ st with pc := (st.pc + 1) % 65536 }, .NOP)
  else if opcode = 0x03 then
    .ok ({ st with bc := (st.bc + 1) % 65536, pc := (st.pc + 1) % 65536 }, .INC_BC)
  else if opcode = 0x0B then
    .ok ({ st with bc := (st.bc + 65535) % 65536, pc := (st.pc + 1) % 65536 }, .DEC_BC)
  else if opcode = 0x0C then
    let c := get_low_byte st.bc
    let result := (c + 1) % 256
    let af1 := if result = 0 then set_flag_af st.af .Z else st.af
    let af2 := clear_flag_af af1 .N
    let af3 := if c &&& 0x0F = 0x0F then set_flag_af af2 .H else clear_flag_af af2 .H
    .ok ({ st with af := af3, bc := replace_low_byte st.bc result, pc := (st.pc + 1) % 65536 }, .INC_C)
  else if opcode = 0x0E then
    .ok ({ st with bc := replace_low_byte st.bc (read8 st (st.pc + 1)), pc := (st.pc + 2) % 65536 }, .LD_C_n8)
  else if opcode = 0x11 then
    let low_byte := read8 st (st.pc + 1)
    let high_byte := read8 st (st.pc + 2)
    .ok ({ st with de := concat_bytes high_byte low_byte, pc := (st.pc + 1) % 65536 }, .LD_DE_n16)
  else if opcode = 0x20 then
    if get_flag st .Z = 0 then
      let e8 := read8 st (st.pc + 1)
      let e8s : Int := if e8 < 128 then (e8 : Int) else (e8 : Int) - 256
      let pcJ := ((((st.pc % 65536 : Nat) : Int) + e8s).emod 65536).toNat
      .ok ({ st with pc := (pcJ + 2) % 65536 }, .JR_NZ_e8 true)
    else
      .ok ({ st with pc := (st.pc + 2) % 65536 }, .JR_NZ_e8 false)
  else if opcode = 0x21 then
    let low := read8 st (st.pc + 1)
    let high := read8 st (st.pc + 2)
    .ok ({ st with hl := concat_bytes high low, pc := (st.pc + 3) % 65536 }, .LD_HL_n16)
  else if opcode = 0x31 then
    let low := read8 st (st.pc + 1)
    let high := read8 st (st.pc + 2)
    .ok ({ st with sp := concat_bytes high low, pc := (st.pc + 3) % 65536 }, .LD_SP_n16)
  else if opcode = 0x32 then
    let st1 := write8 st st.hl (get_high_byte st.af)
    .ok ({ st1 with hl := (st1.hl + 65535) % 65536, pc := (st1.pc + 1) % 65536 },
         .LD_HL_DEC_A)
  else if opcode = 0x3E then
    .ok ({ st with af := replace_high_byte st.af (read8 st (st.pc + 1)), pc := (st.pc + 2) % 65536 }, .LD_A_n8)
  else if opcode = 0x47 then
    let a := get_high_byte st.af
    .ok ({ st with bc := replace_high_byte st.bc a, pc := (st.pc + 1) % 65536 }, .LD_B_A)
  else if opcode = 0x73 then
    let st1 := write8 st st.hl (get_low_byte st.de)
    .ok ({ st1 with pc := (st1.pc + 1) % 65536 }, .LD_HL_E)
  else if opcode = 0x77 then
    let st1 := write8 st st.hl (get_high_byte st.af)
    .ok ({ st1 with pc := (st1.pc + 1) % 65536 }, .LD_HL_A)
  else if opcode = 0xCB then
    (decodeCB st).map (fun st1 => ({ st1 with pc := (st1.pc + 2) % 65536 }, .PrefixCB))
  else if opcode = 0x66 then
    let hl := st.hl
    let st1 := { st with hl := replace_high_byte hl (read8 st hl) }
    .ok ({ st1 with pc := (st1.pc + 1) % 65536 }, .LD_H_HL)
  else if opcode = 0xAF then
    let af1 := clear_flag_af (clear_flag_af (clear_flag_af
      (set_flag_af (replace_high_byte st.af 0) .Z) .N) .H) .C
    .ok ({ st with af := af1, pc := (st.pc + 1) % 65536 }, .XOR_A_A)
  else if opcode = 0xCC then
    if get_flag st .Z ≠ 0 then
      let low := read8 st (st.pc + 1)
      let high := read8 st (st.pc + 2)
      .ok ({ st with pc := concat_bytes high low }, .Call_Z_a16 true)
    else
      .ok ({ st with pc := (st.pc + 3) % 65536 }, .Call_Z_a16 false)
  else if opcode = 0xCE then
    let a := get_high_byte st.af
    let n8 := read8 st (st.pc + 1)
    let result := (a + n8 + get_flag st .C) % 256
    let af1 := replace_high_byte st.af result
    let af2 := if result = 0 then set_flag_af af1 .Z else af1
    let af3 := clear_flag_af af2 .N
    let af4 := if (a &&& 0xF) + (n8 &&& 0xF) + get_flag_af af3 .C > 0xF
      then set_flag_af af3 .H else af3
    let a16 := a
    let n16 := a16
    let result16 := (a16 + n16 + get_flag_af af4 .C) % 65536
    let af5 := if result16 > 0xFF then set_flag_af af4 .C else af4
    .ok ({ st with af := af5, pc := (st.pc + 2) % 65536 }, .ADC_A_n8)
  else if opcode = 0xE0 then
    let n8 := read8 st (st.pc + 1)
    let a8 := 0xFF00 + n8
    let a := get_high_byte st.af
    let st1 := write8 st a8 a
    .ok ({ st1 with pc := (st1.pc + 1) % 65536 }, .LDH_a8_A)
  else if opcode = 0xE2 then
    let c := get_low_byte st.bc
    let st1 := write8 st (memoryMap.h_ram.start + c) (get_high_byte st.af)
    .ok ({ st1 with pc := (st1.pc + 1) % 65536 }, .LDH_C_A)
  else if opcode = 0xE5 then
    let st2 := write8 (write8 st (st.sp + 65535) (get_low_byte st.hl))
      (st.sp + 65534) (get_high_byte st.hl)
    .ok ({ st2 with sp := (st.sp + 65534) % 65536, pc := (st.pc + 1) % 65536 },
         .PUSH_HL)
  else
    .error (.UnimplementedOpcode opcode)

/-- State component of a successful decode, for stating concrete evaluations. -/
def decodeState (st : CPUState) (opcode : Nat) : Option CPUState :=
  match decode st opcode with
  | .ok (s, _) => some s
  | .error _ => none

/-- Instruction component of a successful decode. -/
def decodeInstr (st : CPUState) (opcode : Nat) : Option Instruction :=
  match decode st opcode with
  | .ok (_, i) => some i
  | .error _ => none

/-- The top-level opcodes carried by the non-default arms of `decode`. -/
def topOpcodes : List Nat :=
  [0x00, 0x03, 0x0B, 0x0C, 0x0E, 0x11, 0x20, 0x21, 0x31, 0x32, 0x3E, 0x47,
   0x73, 0x77, 0xCB, 0x66, 0xAF, 0xCC, 0xCE, 0xE0, 0xE2, 0xE5]

/-- A 0xCB sub-opcode byte is handled iff its top two bits are 01 (bit
test), or they are 00 and its middle three bits select one of the four
implemented rotate/shift operations. -/
def cbSupported (b : Nat) : Bool :=
  if (b &&& 0xC0) >>> 6 = 0 then decide ((b &&& 0x38) >>> 3 ≤ 3)
  else decide ((b &&& 0xC0) >>> 6 = 1)

/-- The supported-opcode table: a top-level byte in the decode table, where
0xCB is supported exactly when its following byte is a handled sub-opcode. -/
def supportedOpcode (opcode cbByte : Nat) : Bool :=
  if opcode = 0xCB then cbSupported cbByte else topOpcodes.contains opcode

/-- `extract_low_bits` from gpu.rs: gathers bits 6,4,2,0 of the byte. -/
def extract_low_bits (byte : Nat) : Nat :=
  [0, 2, 4, 6].foldl (fun result i => (result <<< 1) ||| ((byte >>> (6 - i)) &&& 0x1)) 0

/-- `extract_high_bits` from gpu.rs: gathers bits 7,5,3,1 of the byte. -/
def extract_high_bits (byte : Nat) : Nat :=
  [0, 2, 4, 6].foldl
    (fun result i => (result <<< 1) ||| (((byte >>> (6 - i)) &&& 0x2) >>> 1)) 0

/-- The `chunks(2)` traversal of `arrange_tile_bytes`: successive pairs; a
trailing odd element forms no pair (the source's `if let [lhs, rhs]` skips it). -/
def chunksTwo : List Nat → List (Nat × Nat)
  | a :: b :: rest => (a, b) :: chunksTwo rest
  | _ => []

/-- `arrange_tile_bytes` from gpu.rs. -/
def arrange_tile_bytes (tile : List Nat) : List Nat :=
  (chunksTwo tile).enum.foldl
    (fun result ic =>
      let i := ic.1
      let lhs := ic.2.1
      let rhs := ic.2.2
      let low := ((extract_high_bits lhs) <<< 4) ||| extract_high_bits rhs
      let high := ((extract_low_bits lhs) <<< 4) ||| extract_low_bits rhs
      (result.set (i * 2) high).set (i * 2 + 1) low)
    (List.replicate 16 0)

/-- The fixed four-entry palette match of `map_tile_pixels`. -/
def palette_color (result : Nat) : Nat :=
  if result = 0 then 0xE0F8D0
  else if result = 1 then 0x89C06F
  else if result = 2 then 0x356856
  else if result = 3 then 0x081820
  else 0x000000

/-- `map_tile_pixels` from gpu.rs, including its `let index = i * 3;`
(the write position ignores the inner loop variable `j`). -/
def map_tile_pixels (tile : List Nat) : List Nat :=
  tile.enum.foldl
    (fun result_tile ib =>
      let i := ib.1
      let b := ib.2
      [0, 2, 4, 6].foldl
        (fun acc j =>
          let mask := 0x3 <<< (6 - j)
          let offset := 6 - j
          let result := (b &&& mask) >>> offset
          let color := palette_color result
          let index := i * 3
          ((acc.set index ((color &&& 0xFF0000) >>> 16)).set (index + 1)
              ((color &&& 0xFF00) >>> 8)).set (index + 2) (color &&& 0xFF))
        result_tile)
    (List.replicate 192 0)

/-- The all-zero memory image. -/
def zeroMem : Nat → Nat := fun _ => 0

/-- State for exercising ADC A,n8: A = 0x01, flags clear, immediate 0xFF. -/
def adcBugState : CPUState :=
  { af := 0x0100, bc := 0, de := 0, hl := 0, sp := 0, pc := 0,
    mem := fun a => if a = 1 then 0xFF else 0 }

/-- State for exercising BIT 0,B: B = 0x01 (bit 0 set), CB byte 0x40. -/
def bitBugState : CPUState :=
  { af := 0, bc := 0x0100, de := 0, hl := 0, sp := 0, pc := 0,
    mem := fun a => if a = 1 then 0x40 else 0 }

/-- State for exercising LDH [a8],A: A = 0xFF, immediate 0xAB. -/
def ldhA8State : CPUState :=
  { af := 0xFF00, bc := 0, de := 0, hl := 0, sp := 0, pc := 0,
    mem := fun a => if a = 1 then 0xAB else 0 }

/-- State for exercising LDH [C],A: A = 0xFF, C = 0x01. -/
def ldhCState : CPUState :=
  { af := 0xFF00, bc := 0x0001, de := 0, hl := 0, sp := 0, pc := 0, mem := zeroMem }

/-- State for exercising LD DE,n16 with operand bytes 0xCD, 0xAB. -/
def ldDEState : CPUState :=
  { af := 0, bc := 0, de := 0, hl := 0, sp := 0, pc := 0,
    mem := fun a => if a = 1 then 0xCD else if a = 2 then 0xAB else 0 }

/-- State with BC at the wrap boundary 0xFFFF. -/
def wrapState : CPUState :=
  { af := 0, bc := 0xFFFF, de := 0, hl := 0, sp := 0, pc := 0, mem := zeroMem }

/-- State with the Zero flag set and C = 0, for INC C. -/
def incCState : CPUState :=
  { af := 0x80, bc := 0, de := 0, hl := 0, sp := 0, pc := 0, mem := zeroMem }

theorem testBit_255 (i : Nat) : Nat.testBit 255 i = decide (i < 8) := by
  rw [show (255 : Nat) = 2 ^ 8 - 1 from rfl, Nat.testBit_two_pow_sub_one]

theorem testBit_65280 (i : Nat) :
    Nat.testBit 65280 i = (decide (8 ≤ i) && decide (i - 8 < 8)) := by
  rw [show (65280 : Nat) = 255 <<< 8 from rfl, Nat.testBit_shiftLeft, testBit_255]

theorem testBit_15 (i : Nat) : Nat.testBit 15 i = decide (i < 4) := by
  rw [show (15 : Nat) = 2 ^ 4 - 1 from rfl, Nat.testBit_two_pow_sub_one]

theorem Flag.bit_lt (f : Flag) : f.bit < 8 := by cases f <;> decide

theorem Flag.four_le_bit (f : Flag) : 4 ≤ f.bit := by cases f <;> decide

/-- Bit-level description of `set_flag`: it turns on the flag's bit and
leaves every other bit of AF alone. -/
theorem set_flag_af_testBit (af : Nat) (f : Flag) (i : Nat) :
    (set_flag_af af f).testBit i = (af.testBit i || decide (i = f.bit)) := by
  simp only [set_flag_af, Nat.testBit_or, Nat.testBit_and, testBit_255,
    Nat.one_shiftLeft, Nat.testBit_two_pow]
  by_cases hi : i = f.bit <;> cases h : af.testBit i <;>
    simp_all [show (f.bit = i) = (i = f.bit) from propext eq_comm]

/-- Bit-level description of `clear_flag`: it turns off the flag's bit,
keeps the other 16 low bits, and truncates AF to 16 bits. -/
theorem clear_flag_af_testBit (af : Nat) (f : Flag) (i : Nat) :
    (clear_flag_af af f).testBit i =
      (af.testBit i && !(decide (i = f.bit)) && decide (i < 16)) := by
  have hb8 : f.bit < 8 := f.bit_lt
  simp only [clear_flag_af, get_high_byte, Nat.testBit_or, Nat.testBit_xor,
    Nat.testBit_and, Nat.testBit_shiftLeft, Nat.testBit_shiftRight,
    Nat.one_shiftLeft, Nat.testBit_two_pow, testBit_255, testBit_65280]
  rcases Nat.lt_or_ge i 8 with hlt | hge
  · have h1 : ¬ (8 ≤ i) := by omega
    have h2 : i < 16 := by omega
    by_cases hi : f.bit = i
    · simp [h1, h2, hi]
    · simp [h1, h2, hi, hlt, show ¬ (i = f.bit) from by omega]
  · have he : 8 + (i - 8) = i := by omega
    have hbne : ¬ (f.bit = i) := by omega
    have hbne2 : ¬ (i = f.bit) := by omega
    have hlt' : ¬ (i < 8) := by omega
    rcases Nat.lt_or_ge i 16 with h16 | h16
    · have hd : i - 8 < 8 := by omega
      simp [he, hbne, hbne2, hge, hd, hlt', h16]
    · have hd : ¬ (i - 8 < 8) := by omega
      simp [he, hbne, hbne2, hge, hd, hlt', show ¬ (i < 16) from by omega]

theorem and15_set_flag_af (af : Nat) (f : Flag) :
    set_flag_af af f &&& 15 = af &&& 15 := by
  apply Nat.eq_of_testBit_eq
  intro i
  simp only [Nat.testBit_and, testBit_15, set_flag_af_testBit]
  by_cases hi : i < 4
  · have h1 : ¬ (i = f.bit) := by have := f.four_le_bit; omega
    simp [hi, h1]
  · simp [hi]

theorem and15_clear_flag_af (af : Nat) (f : Flag) :
    clear_flag_af af f &&& 15 = af &&& 15 := by
  apply Nat.eq_of_testBit_eq
  intro i
  simp only [Nat.testBit_and, testBit_15, clear_flag_af_testBit]
  by_cases hi : i < 4
  · have h1 : ¬ (i = f.bit) := by have := f.four_le_bit; omega
    have h2 : i < 16 := by omega
    simp [hi, h1, h2]
  · simp [hi]

theorem and15_replace_high_byte (b v : Nat) :
    replace_high_byte b v &&& 15 = b &&& 15 := by
  apply Nat.eq_of_testBit_eq
  intro i
  simp only [replace_high_byte, Nat.testBit_and, Nat.testBit_or, testBit_15,
    testBit_255, Nat.testBit_shiftLeft]
  by_cases hi : i < 4
  · have h8 : ¬ (8 ≤ i) := by omega
    simp [hi, h8, show i < 8 from by omega]
  · simp [hi]

/-- `get_flag` reads exactly the flag's bit of AF. -/
theorem get_flag_af_eq_toNat (af : Nat) (f : Flag) :
    get_flag_af af f = (af.testBit f.bit).toNat := by
  unfold get_flag_af
  rw [Nat.one_shiftLeft, Nat.and_two_pow, Nat.shiftRight_eq_div_pow,
    Nat.mul_div_cancel _ (Nat.two_pow_pos _)]

theorem and15_cb_rot_flags (af result carry : Nat) (hn : Bool) :
    cb_rot_flags af result carry hn &&& 15 = af &&& 15 := by
  unfold cb_rot_flags
  split_ifs <;> simp [and15_set_flag_af, and15_clear_flag_af]

theorem replace_cb_operand_af_and15 (st : CPUState) (v value : Nat) :
    (replace_cb_operand st v value).af &&& 15 = st.af &&& 15 := by
  unfold replace_cb_operand
  split_ifs <;> simp [write8, and15_replace_high_byte]

/-- The 0xCB arm never disturbs the low nibble of AF. -/
theorem decodeCB_af_and15 (st st1 : CPUState) (h : decodeCB st = .ok st1) :
    st1.af &&& 15 = st.af &&& 15 := by
  simp only [decodeCB] at h
  split_ifs at h <;>
    simp_all only [Except.ok.injEq, reduceCtorEq] <;>
    subst h <;>
    simp [and15_set_flag_af, and15_clear_flag_af, and15_cb_rot_flags,
      replace_cb_operand_af_and15]

set_option linter.unnecessarySeqFocus false

set_option linter.unreachableTactic false

set_option linter.unusedTactic false

set_option maxHeartbeats 1000000 in
/-- No decode step disturbs the low nibble of AF: executing any supported
opcode maps AF to a value with the same bottom four bits. -/
theorem decode_af_and15 (st s : CPUState) (opcode : Nat) (instr : Instruction)
    (h : decode st opcode = .ok (s, instr)) : s.af &&& 15 = st.af &&& 15 := by
  by_cases h0 : opcode = 0x00
  · subst h0
    unfold decode at h
    rw [if_pos (by decide)] at h
    first
    | (split_ifs at h <;>
        (simp only [Except.ok.injEq, Prod.mk.injEq] at h
         obtain ⟨h1, h2⟩ := h
         subst h1
         first
         | (split_ifs <;>
             simp [write8, and15_set_flag_af, and15_clear_flag_af,
               and15_replace_high_byte])
         | simp [write8, and15_set_flag_af, and15_clear_flag_af,
             and15_replace_high_byte]))
    | (simp only [Except.ok.injEq, Prod.mk.injEq] at h
       obtain ⟨h1, h2⟩ := h
       subst h1
       first
       | (split_ifs <;>
           simp [write8, and15_set_flag_af, and15_clear_flag_af,
             and15_replace_high_byte])
       | simp [write8, and15_set_flag_af, and15_clear_flag_af,
           and15_replace_high_byte])
  by_cases h1 : opcode = 0x03
  · subst h1
    unfold decode at h
    rw [if_neg (by decide), if_pos (by decide)] at h
    first
    | (split_ifs at h <;>
        (simp only [Except.ok.injEq, Prod.mk.injEq] at h
         obtain ⟨h1, h2⟩ := h
         subst h1
         first
         | (split_ifs <;>
             simp [write8, and15_set_flag_af, and15_clear_flag_af,
               and15_replace_high_byte])
         | simp [write8, and15_set_flag_af, and15_clear_flag_af,
             and15_replace_high_byte]))
    | (simp only [Except.ok.injEq, Prod.mk.injEq] at h
       obtain ⟨h1, h2⟩ := h
       subst h1
       first
       | (split_ifs <;>
           simp [write8, and15_set_flag_af, and15_clear_flag_af,
             and15_replace_high_byte])
       | simp [write8, and15_set_flag_af, and15_clear_flag_af,
           and15_replace_high_byte])
  by_cases h2 : opcode = 0x0B
  · subst h2
    unfold decode at h
    rw [if_neg (by decide), if_neg (by decide), if_pos (by decide)] at h
    first
    | (split_ifs at h <;>
        (simp only [Except.ok.injEq, Prod.mk.injEq] at h
         obtain ⟨h1, h2⟩ := h
         subst h1
         first
         | (split_ifs <;>
             simp [write8, and15_set_flag_af, and15_clear_flag_af,
               and15_replace_high_byte])
         | simp [write8, and15_set_flag_af, and15_clear_flag_af,
             and15_replace_high_byte]))
    | (simp only [Except.ok.injEq, Prod.mk.injEq] at h
       obtain ⟨h1, h2⟩ := h
       subst h1
       first
       | (split_ifs <;>
           simp [write8, and15_set_flag_af, and15_clear_flag_af,
             and15_replace_high_byte])
       | simp [write8, and15_set_flag_af, and15_clear_flag_af,
           and15_replace_high_byte])
  by_cases h3 : opcode = 0x0C
  · subst h3
    unfold decode at h
    rw [if_neg (by decide), if_neg (by decide), if_neg (by decide),
      if_pos (by decide)] at h
    first
    | (split_ifs at h <;>
        (simp only [Except.ok.injEq, Prod.mk.injEq] at h
         obtain ⟨h1, h2⟩ := h
         subst h1
         first
         | (split_ifs <;>
             simp [write8, and15_set_flag_af, and15_clear_flag_af,
               and15_replace_high_byte])
         | simp [write8, and15_set_flag_af, and15_clear_flag_af,
             and15_replace_high_byte]))
    | (simp only [Except.ok.injEq, Prod.mk.injEq] at h
       obtain ⟨h1, h2⟩ := h
       subst h1
       first
       | (split_ifs <;>
           simp [write8, and15_set_flag_af, and15_clear_flag_af,
             and15_replace_high_byte])
       | simp [write8, and15_set_flag_af, and15_clear_flag_af,
           and15_replace_high_byte])
  by_cases h4 : opcode = 0x0E
  · subst h4
    unfold decode at h
    rw [if_neg (by decide), if_neg (by decide), if_neg (by decide), if_neg (by decide),
      if_pos (by decide)] at h
    first
    | (split_ifs at h <;>
        (simp only [Except.ok.injEq, Prod.mk.injEq] at h
         obtain ⟨h1, h2⟩ := h
         subst h1
         first
         | (split_ifs <;>
             simp [write8, and15_set_flag_af, and15_clear_flag_af,
               and15_replace_high_byte])
         | simp [write8, and15_set_flag_af, and15_clear_flag_af,
             and15_replace_high_byte]))
    | (simp only [Except.ok.injEq, Prod.mk.injEq] at h
       obtain ⟨h1, h2⟩ := h
       subst h1
       first
       | (split_ifs <;>
           simp [write8, and15_set_flag_af, and15_clear_flag_af,
             and15_replace_high_byte])
       | simp [write8, and15_set_flag_af, and15_clear_flag_af,
           and15_replace_high_byte])
  by_cases h5 : opcode = 0x11
  · subst h5
    unfold decode at h
    rw [if_neg (by decide), if_neg (by decide), if_neg (by decide), if_neg (by decide),
      if_neg (by decide), if_pos (by decide)] at h
    first
    | (split_ifs at h <;>
        (simp only [Except.ok.injEq, Prod.mk.injEq] at h
         obtain ⟨h1, h2⟩ := h
         subst h1
         first
         | (split_ifs <;>
             simp [write8, and15_set_flag_af, and15_clear_flag_af,
               and15_replace_high_byte])
         | simp [write8, and15_set_flag_af, and15_clear_flag_af,
             and15_replace_high_byte]))
    | (simp only [Except.ok.injEq, Prod.mk.injEq] at h
       obtain ⟨h1, h2⟩ := h
       subst h1
       first
       | (split_ifs <;>
           simp [write8, and15_set_flag_af, and15_clear_flag_af,
             and15_replace_high_byte])
       | simp [write8, and15_set_flag_af, and15_clear_flag_af,
           and15_replace_high_byte])
  by_cases h6 : opcode = 0x20
  · subst h6
    unfold decode at h
    rw [if_neg (by decide), if_neg (by decide), if_neg (by decide), if_neg (by decide),
      if_neg (by decide), if_neg (by decide), if_pos (by decide)] at h
    first
    | (split_ifs at h <;>
        (simp only [Except.ok.injEq, Prod.mk.injEq] at h
         obtain ⟨h1, h2⟩ := h
         subst h1
         first
         | (split_ifs <;>
             simp [write8, and15_set_flag_af, and15_clear_flag_af,
               and15_replace_high_byte])
         | simp [write8, and15_set_flag_af, and15_clear_flag_af,
             and15_replace_high_byte]))
    | (simp only [Except.ok.injEq, Prod.mk.injEq] at h
       obtain ⟨h1, h2⟩ := h
       subst h1
       first
       | (split_ifs <;>
           simp [write8, and15_set_flag_af, and15_clear_flag_af,
             and15_replace_high_byte])
       | simp [write8, and15_set_flag_af, and15_clear_flag_af,
           and15_replace_high_byte])
  by_cases h7 : opcode = 0x21
  · subst h7
    unfold decode at h
    rw [if_neg (by decide), if_neg (by decide), if_neg (by decide), if_neg (by decide),
      if_neg (by decide), if_neg (by decide), if_neg (by decide), if_pos (by decide)] at h
    first
    | (split_ifs at h <;>
        (simp only [Except.ok.injEq, Prod.mk.injEq] at h
         obtain ⟨h1, h2⟩ := h
         subst h1
         first
         | (split_ifs <;>
             simp [write8, and15_set_flag_af, and15_clear_flag_af,
               and15_replace_high_byte])
         | simp [write8, and15_set_flag_af, and15_clear_flag_af,
             and15_replace_high_byte]))
    | (simp only [Except.ok.injEq, Prod.mk.injEq] at h
       obtain ⟨h1, h2⟩ := h
       subst h1
       first
       | (split_ifs <;>
           simp [write8, and15_set_flag_af, and15_clear_flag_af,
             and15_replace_high_byte])
       | simp [write8, and15_set_flag_af, and15_clear_flag_af,
           and15_replace_high_byte])
  by_cases h8 : opcode = 0x31
  · subst h8
    unfold decode at h
    rw [if_neg (by decide), if_neg (by decide), if_neg (by decide), if_neg (by decide),
      if_neg (by decide), if_neg (by decide), if_neg (by decide), if_neg (by decide),
      if_pos (by decide)] at h
    first
    | (split_ifs at h <;>
        (simp only [Except.ok.injEq, Prod.mk.injEq] at h
         obtain ⟨h1, h2⟩ := h
         subst h1
         first
         | (split_ifs <;>
             simp [write8, and15_set_flag_af, and15_clear_flag_af,
               and15_replace_high_byte])
         | simp [write8, and15_set_flag_af, and15_clear_flag_af,
             and15_replace_high_byte]))
    | (simp only [Except.ok.injEq, Prod.mk.injEq] at h
       obtain ⟨h1, h2⟩ := h
       subst h1
       first
       | (split_ifs <;>
           simp [write8, and15_set_flag_af, and15_clear_flag_af,
             and15_replace_high_byte])
       | simp [write8, and15_set_flag_af, and15_clear_flag_af,
           and15_replace_high_byte])
  by_cases h9 : opcode = 0x32
  · subst h9
    unfold decode at h
    rw [if_neg (by decide), if_neg (by decide), if_neg (by decide), if_neg (by decide),
      if_neg (by decide), if_neg (by decide), if_neg (by decide), if_neg (by decide),
      if_neg (by decide), if_pos (by decide)] at h
    first
    | (split_ifs at h <;>
        (simp only [Except.ok.injEq, Prod.mk.injEq] at h
         obtain ⟨h1, h2⟩ := h
         subst h1
         first
         | (split_ifs <;>
             simp [write8, and15_set_flag_af, and15_clear_flag_af,
               and15_replace_high_byte])
         | simp [write8, and15_set_flag_af, and15_clear_flag_af,
             and15_replace_high_byte]))
    | (simp only [Except.ok.injEq, Prod.mk.injEq] at h
       obtain ⟨h1, h2⟩ := h
       subst h1
       first
       | (split_ifs <;>
           simp [write8, and15_set_flag_af, and15_clear_flag_af,
             and15_replace_high_byte])
       | simp [write8, and15_set_flag_af, and15_clear_flag_af,
           and15_replace_high_byte])
  by_cases h10 : opcode = 0x3E
  · subst h10
    unfold decode at h
    rw [if_neg (by decide), if_neg (by decide), if_neg (by decide), if_neg (by decide),
      if_neg (by decide), if_neg (by decide), if_neg (by decide), if_neg (by decide),
      if_neg (by decide), if_neg (by decide), if_pos (by decide)] at h
    first
    | (split_ifs at h <;>
        (simp only [Except.ok.injEq, Prod.mk.injEq] at h
         obtain ⟨h1, h2⟩ := h
         subst h1
         first
         | (split_ifs <;>
             simp [write8, and15_set_flag_af, and15_clear_flag_af,
               and15_replace_high_byte])
         | simp [write8, and15_set_flag_af, and15_clear_flag_af,
             and15_replace_high_byte]))
    | (simp only [Except.ok.injEq, Prod.mk.injEq] at h
       obtain ⟨h1, h2⟩ := h
       subst h1
       first
       | (split_ifs <;>
           simp [write8, and15_set_flag_af, and15_clear_flag_af,
             and15_replace_high_byte])
       | simp [write8, and15_set_flag_af, and15_clear_flag_af,
           and15_replace_high_byte])
  by_cases h11 : opcode = 0x47
  · subst h11
    unfold decode at h
    rw [if_neg (by decide), if_neg (by decide), if_neg (by decide), if_neg (by decide),
      if_neg (by decide), if_neg (by decide), if_neg (by decide), if_neg (by decide),
      if_neg (by decide), if_neg (by decide), if_neg (by decide), if_pos (by decide)] at h
    first
    | (split_ifs at h <;>
        (simp only [Except.ok.injEq, Prod.mk.injEq] at h
         obtain ⟨h1, h2⟩ := h
         subst h1
         first
         | (split_ifs <;>
             simp [write8, and15_set_flag_af, and15_clear_flag_af,
               and15_replace_high_byte])
         | simp [write8, and15_set_flag_af, and15_clear_flag_af,
             and15_replace_high_byte]))
    | (simp only [Except.ok.injEq, Prod.mk.injEq] at h
       obtain ⟨h1, h2⟩ := h
       subst h1
       first
       | (split_ifs <;>
           simp [write8, and15_set_flag_af, and15_clear_flag_af,
             and15_replace_high_byte])
       | simp [write8, and15_set_flag_af, and15_clear_flag_af,
           and15_replace_high_byte])
  by_cases h12 : opcode = 0x73
  · subst h12
    unfold decode at h
    rw [if_neg (by decide), if_neg (by decide), if_neg (by decide), if_neg (by decide),
      if_neg (by decide), if_neg (by decide), if_neg (by decide), if_neg (by decide),
      if_neg (by decide), if_neg (by decide), if_neg (by decide), if_neg (by decide),
      if_pos (by decide)] at h
    first
    | (split_ifs at h <;>
        (simp only [Except.ok.injEq, Prod.mk.injEq] at h
         obtain ⟨h1, h2⟩ := h
         subst h1
         first
         | (split_ifs <;>
             simp [write8, and15_set_flag_af, and15_clear_flag_af,
               and15_replace_high_byte])
         | simp [write8, and15_set_flag_af, and15_clear_flag_af,
             and15_replace_high_byte]))
    | (simp only [Except.ok.injEq, Prod.mk.injEq] at h
       obtain ⟨h1, h2⟩ := h
       subst h1
       first
       | (split_ifs <;>
           simp [write8, and15_set_flag_af, and15_clear_flag_af,
             and15_replace_high_byte])
       | simp [write8, and15_set_flag_af, and15_clear_flag_af,
           and15_replace_high_byte])
  by_cases h13 : opcode = 0x77
  · subst h13
    unfold decode at h
    rw [if_neg (by decide), if_neg (by decide), if_neg (by decide), if_neg (by decide),
      if_neg (by decide), if_neg (by decide), if_neg (by decide), if_neg (by decide),
      if_neg (by decide), if_neg (by decide), if_neg (by decide), if_neg (by decide),
      if_neg (by decide), if_pos (by decide)] at h
    first
    | (split_ifs at h <;>
        (simp only [Except.ok.injEq, Prod.mk.injEq] at h
         obtain ⟨h1, h2⟩ := h
         subst h1
         first
         | (split_ifs <;>
             simp [write8, and15_set_flag_af, and15_clear_flag_af,
               and15_replace_high_byte])
         | simp [write8, and15_set_flag_af, and15_clear_flag_af,
             and15_replace_high_byte]))
    | (simp only [Except.ok.injEq, Prod.mk.injEq] at h
       obtain ⟨h1, h2⟩ := h
       subst h1
       first
       | (split_ifs <;>
           simp [write8, and15_set_flag_af, and15_clear_flag_af,
             and15_replace_high_byte])
       | simp [write8, and15_set_flag_af, and15_clear_flag_af,
           and15_replace_high_byte])
  by_cases h14 : opcode = 0xCB
  · subst h14
    unfold decode at h
    rw [if_neg (by decide), if_neg (by decide), if_neg (by decide), if_neg (by decide),
      if_neg (by decide), if_neg (by decide), if_neg (by decide), if_neg (by decide),
      if_neg (by decide), if_neg (by decide), if_neg (by decide), if_neg (by decide),
      if_neg (by decide), if_neg (by decide), if_pos (by decide)] at h
    cases hcb : decodeCB st with
    | error e =>
      rw [hcb] at h
      simp only [Except.map, reduceCtorEq] at h
    | ok st1 =>
      rw [hcb] at h
      simp only [Except.map, Except.ok.injEq, Prod.mk.injEq] at h
      obtain ⟨h1, h2⟩ := h
      subst h1
      simpa using decodeCB_af_and15 st st1 hcb
  by_cases h15 : opcode = 0x66
  · subst h15
    unfold decode at h
    rw [if_neg (by decide), if_neg (by decide), if_neg (by decide), if_neg (by decide),
      if_neg (by decide), if_neg (by decide), if_neg (by decide), if_neg (by decide),
      if_neg (by decide), if_neg (by decide), if_neg (by decide), if_neg (by decide),
      if_neg (by decide), if_neg (by decide), if_neg (by decide), if_pos (by decide)] at h
    first
    | (split_ifs at h <;>
        (simp only [Except.ok.injEq, Prod.mk.injEq] at h
         obtain ⟨h1, h2⟩ := h
         subst h1
         first
         | (split_ifs <;>
             simp [write8, and15_set_flag_af, and15_clear_flag_af,
               and15_replace_high_byte])
         | simp [write8, and15_set_flag_af, and15_clear_flag_af,
             and15_replace_high_byte]))
    | (simp only [Except.ok.injEq, Prod.mk.injEq] at h
       obtain ⟨h1, h2⟩ := h
       subst h1
       first
       | (split_ifs <;>
           simp [write8, and15_set_flag_af, and15_clear_flag_af,
             and15_replace_high_byte])
       | simp [write8, and15_set_flag_af, and15_clear_flag_af,
           and15_replace_high_byte])
  by_cases h16 : opcode = 0xAF
  · subst h16
    unfold decode at h
    rw [if_neg (by decide), if_neg (by decide), if_neg (by decide), if_neg (by decide),
      if_neg (by decide), if_neg (by decide), if_neg (by decide), if_neg (by decide),
      if_neg (by decide), if_neg (by decide), if_neg (by decide), if_neg (by decide),
      if_neg (by decide), if_neg (by decide), if_neg (by decide), if_neg (by decide),
      if_pos (by decide)] at h
    first
    | (split_ifs at h <;>
        (simp only [Except.ok.injEq, Prod.mk.injEq] at h
         obtain ⟨h1, h2⟩ := h
         subst h1
         first
         | (split_ifs <;>
             simp [write8, and15_set_flag_af, and15_clear_flag_af,
               and15_replace_high_byte])
         | simp [write8, and15_set_flag_af, and15_clear_flag_af,
             and15_replace_high_byte]))
    | (simp only [Except.ok.injEq, Prod.mk.injEq] at h
       obtain ⟨h1, h2⟩ := h
       subst h1
       first
       | (split_ifs <;>
           simp [write8, and15_set_flag_af, and15_clear_flag_af,
             and15_replace_high_byte])
       | simp [write8, and15_set_flag_af, and15_clear_flag_af,
           and15_replace_high_byte])
  by_cases h17 : opcode = 0xCC
  · subst h17
    unfold decode at h
    rw [if_neg (by decide), if_neg (by decide), if_neg (by decide), if_neg (by decide),
      if_neg (by decide), if_neg (by decide), if_neg (by decide), if_neg (by decide),
      if_neg (by decide), if_neg (by decide), if_neg (by decide), if_neg (by decide),
      if_neg (by decide), if_neg (by decide), if_neg (by decide), if_neg (by decide),
      if_neg (by decide), if_pos (by decide)] at h
    first
    | (split_ifs at h <;>
        (simp only [Except.ok.injEq, Prod.mk.injEq] at h
         obtain ⟨h1, h2⟩ := h
         subst h1
         first
         | (split_ifs <;>
             simp [write8, and15_set_flag_af, and15_clear_flag_af,
               and15_replace_high_byte])
         | simp [write8, and15_set_flag_af, and15_clear_flag_af,
             and15_replace_high_byte]))
    | (simp only [Except.ok.injEq, Prod.mk.injEq] at h
       obtain ⟨h1, h2⟩ := h
       subst h1
       first
       | (split_ifs <;>
           simp [write8, and15_set_flag_af, and15_clear_flag_af,
             and15_replace_high_byte])
       | simp [write8, and15_set_flag_af, and15_clear_flag_af,
           and15_replace_high_byte])
  by_cases h18 : opcode = 0xCE
  · subst h18
    unfold decode at h
    rw [if_neg (by decide), if_neg (by decide), if_neg (by decide), if_neg (by decide),
      if_neg (by decide), if_neg (by decide), if_neg (by decide), if_neg (by decide),
      if_neg (by decide), if_neg (by decide), if_neg (by decide), if_neg (by decide),
      if_neg (by decide), if_neg (by decide), if_neg (by decide), if_neg (by decide),
      if_neg (by decide), if_neg (by decide), if_pos (by decide)] at h
    first
    | (split_ifs at h <;>
        (simp only [Except.ok.injEq, Prod.mk.injEq] at h
         obtain ⟨h1, h2⟩ := h
         subst h1
         first
         | (split_ifs <;>
             simp [write8, and15_set_flag_af, and15_clear_flag_af,
               and15_replace_high_byte])
         | simp [write8, and15_set_flag_af, and15_clear_flag_af,
             and15_replace_high_byte]))
    | (simp only [Except.ok.injEq, Prod.mk.injEq] at h
       obtain ⟨h1, h2⟩ := h
       subst h1
       first
       | (split_ifs <;>
           simp [write8, and15_set_flag_af, and15_clear_flag_af,
             and15_replace_high_byte])
       | simp [write8, and15_set_flag_af, and15_clear_flag_af,
           and15_replace_high_byte])
  by_cases h19 : opcode = 0xE0
  · subst h19
    unfold decode at h
    rw [if_neg (by decide), if_neg (by decide), if_neg (by decide), if_neg (by decide),
      if_neg (by decide), if_neg (by decide), if_neg (by decide), if_neg (by decide),
      if_neg (by decide), if_neg (by decide), if_neg (by decide), if_neg (by decide),
      if_neg (by decide), if_neg (by decide), if_neg (by decide), if_neg (by decide),
      if_neg (by decide), if_neg (by decide), if_neg (by decide), if_pos (by decide)] at h
    first
    | (split_ifs at h <;>
        (simp only [Except.ok.injEq, Prod.mk.injEq] at h
         obtain ⟨h1, h2⟩ := h
         subst h1
         first
         | (split_ifs <;>
             simp [write8, and15_set_flag_af, and15_clear_flag_af,
               and15_replace_high_byte])
         | simp [write8, and15_set_flag_af, and15_clear_flag_af,
             and15_replace_high_byte]))
    | (simp only [Except.ok.injEq, Prod.mk.injEq] at h
       obtain ⟨h1, h2⟩ := h
       subst h1
       first
       | (split_ifs <;>
           simp [write8, and15_set_flag_af, and15_clear_flag_af,
             and15_replace_high_byte])
       | simp [write8, and15_set_flag_af, and15_clear_flag_af,
           and15_replace_high_byte])
  by_cases h20 : opcode = 0xE2
  · subst h20
    unfold decode at h
    rw [if_neg (by decide), if_neg (by decide), if_neg (by decide), if_neg (by decide),
      if_neg (by decide), if_neg (by decide), if_neg (by decide), if_neg (by decide),
      if_neg (by decide), if_neg (by decide), if_neg (by decide), if_neg (by decide),
      if_neg (by decide), if_neg (by decide), if_neg (by decide), if_neg (by decide),
      if_neg (by decide), if_neg (by decide), if_neg (by decide), if_neg (by decide),
      if_pos (by decide)] at h
    first
    | (split_ifs at h <;>
        (simp only [Except.ok.injEq, Prod.mk.injEq] at h
         obtain ⟨h1, h2⟩ := h
         subst h1
         first
         | (split_ifs <;>
             simp [write8, and15_set_flag_af, and15_clear_flag_af,
               and15_replace_high_byte])
         | simp [write8, and15_set_flag_af, and15_clear_flag_af,
             and15_replace_high_byte]))
    | (simp only [Except.ok.injEq, Prod.mk.injEq] at h
       obtain ⟨h1, h2⟩ := h
       subst h1
       first
       | (split_ifs <;>
           simp [write8, and15_set_flag_af, and15_clear_flag_af,
             and15_replace_high_byte])
       | simp [write8, and15_set_flag_af, and15_clear_flag_af,
           and15_replace_high_byte])
  by_cases h21 : opcode = 0xE5
  · subst h21
    unfold decode at h
    rw [if_neg (by decide), if_neg (by decide), if_neg (by decide), if_neg (by decide),
      if_neg (by decide), if_neg (by decide), if_neg (by decide), if_neg (by decide),
      if_neg (by decide), if_neg (by decide), if_neg (by decide), if_neg (by decide),
      if_neg (by decide), if_neg (by decide), if_neg (by decide), if_neg (by decide),
      if_neg (by decide), if_neg (by decide), if_neg (by decide), if_neg (by decide),
      if_neg (by decide), if_pos (by decide)] at h
    first
    | (split_ifs at h <;>
        (simp only [Except.ok.injEq, Prod.mk.injEq] at h
         obtain ⟨h1, h2⟩ := h
         subst h1
         first
         | (split_ifs <;>
             simp [write8, and15_set_flag_af, and15_clear_flag_af,
               and15_replace_high_byte])
         | simp [write8, and15_set_flag_af, and15_clear_flag_af,
             and15_replace_high_byte]))
    | (simp only [Except.ok.injEq, Prod.mk.injEq] at h
       obtain ⟨h1, h2⟩ := h
       subst h1
       first
       | (split_ifs <;>
           simp [write8, and15_set_flag_af, and15_clear_flag_af,
             and15_replace_high_byte])
       | simp [write8, and15_set_flag_af, and15_clear_flag_af,
           and15_replace_high_byte])
  unfold decode at h
  rw [if_neg h0, if_neg h1, if_neg h2, if_neg h3, if_neg h4, if_neg h5, if_neg h6,
    if_neg h7, if_neg h8, if_neg h9, if_neg h10, if_neg h11, if_neg h12, if_neg h13,
    if_neg h14, if_neg h15, if_neg h16, if_neg h17, if_neg h18, if_neg h19, if_neg h20,
    if_neg h21] at h
  simp at h


/-- C6 helper: the 0xCB arm succeeds exactly on the handled sub-opcodes. -/
theorem decodeCB_isSome (st : CPUState) :
    (decodeCB st).toOption.isSome = cbSupported (read8 st (st.pc + 1)) := by
  simp only [decodeCB, cbSupported]
  split_ifs <;> simp_all [Except.toOption] <;> omega

set_option maxHeartbeats 1000000 in
/-- C6: `decode` succeeds precisely on the supported opcode table — any
top-level byte without a decode case, and any 0xCB-prefixed sub-opcode
outside the handled sub-families, yields the fatal UnimplementedOpcode
error (embedded as `Except.error`), never a silent no-op. -/
theorem C6_unimplemented_opcode_error (st : CPUState) (opcode : Nat) :
    (decodeState st opcode).isSome = supportedOpcode opcode (read8 st (st.pc + 1)) := by
  by_cases h0 : opcode = 0x00
  · subst h0
    simp only [decodeState]
    unfold decode
    rw [if_pos (by decide)]
    first
    | (split_ifs <;> simp [supportedOpcode, topOpcodes])
    | simp [supportedOpcode, topOpcodes]

  by_cases h1 : opcode = 0x03
  · subst h1
    simp only [decodeState]
    unfold decode
    rw [if_neg (by decide), if_pos (by decide)]
    first
    | (split_ifs <;> simp [supportedOpcode, topOpcodes])
    | simp [supportedOpcode, topOpcodes]

  by_cases h2 : opcode = 0x0B
  · subst h2
    simp only [decodeState]
    unfold decode
    rw [if_neg (by decide), if_neg (by decide), if_pos (by decide)]
    first
    | (split_ifs <;> simp [supportedOpcode, topOpcodes])
    | simp [supportedOpcode, topOpcodes]

  by_cases h3 : opcode = 0x0C
  · subst h3
    simp only [decodeState]
    unfold decode
    rw [if_neg (by decide), if_neg (by decide), if_neg (by decide), if_pos (by decide)]
    first
    | (split_ifs <;> simp [supportedOpcode, topOpcodes])
    | simp [supportedOpcode, topOpcodes]

  by_cases h4 : opcode = 0x0E
  · subst h4
    simp only [decodeState]
    unfold decode
    rw [if_neg (by decide), if_neg (by decide), if_neg (by decide), if_neg (by decide),
      if_pos (by decide)]
    first
    | (split_ifs <;> simp [supportedOpcode, topOpcodes])
    | simp [supportedOpcode, topOpcodes]

  by_cases h5 : opcode = 0x11
  · subst h5
    simp only [decodeState]
    unfold decode
    rw [if_neg (by decide), if_neg (by decide), if_neg (by decide), if_neg (by decide),
      if_neg (by decide), if_pos (by decide)]
    first
    | (split_ifs <;> simp [supportedOpcode, topOpcodes])
    | simp [supportedOpcode, topOpcodes]

  by_cases h6 : opcode = 0x20
  · subst h6
    simp only [decodeState]
    unfold decode
    rw [if_neg (by decide), if_neg (by decide), if_neg (by decide), if_neg (by decide),
      if_neg (by decide), if_neg (by decide), if_pos (by decide)]
    first
    | (split_ifs <;> simp [supportedOpcode, topOpcodes])
    | simp [supportedOpcode, topOpcodes]

  by_cases h7 : opcode = 0x21
  · subst h7
    simp only [decodeState]
    unfold decode
    rw [if_neg (by decide), if_neg (by decide), if_neg (by decide), if_neg (by decide),
      if_neg (by decide), if_neg (by decide), if_neg (by decide), if_pos (by decide)]
    first
    | (split_ifs <;> simp [supportedOpcode, topOpcodes])
    | simp [supportedOpcode, topOpcodes]

  by_cases h8 : opcode = 0x31
  · subst h8
    simp only [decodeState]
    unfold decode
    rw [if_neg (by decide), if_neg (by decide), if_neg (by decide), if_neg (by decide),
      if_neg (by decide), if_neg (by decide), if_neg (by decide), if_neg (by decide),
      if_pos (by decide)]
    first
    | (split_ifs <;> simp [supportedOpcode, topOpcodes])
    | simp [supportedOpcode, topOpcodes]

  by_cases h9 : opcode = 0x32
  · subst h9
    simp only [decodeState]
    unfold decode
    rw [if_neg (by decide), if_neg (by decide), if_neg (by decide), if_neg (by decide),
      if_neg (by decide), if_neg (by decide), if_neg (by decide), if_neg (by decide),
      if_neg (by decide), if_pos (by decide)]
    first
    | (split_ifs <;> simp [supportedOpcode, topOpcodes])
    | simp [supportedOpcode, topOpcodes]

  by_cases h10 : opcode = 0x3E
  · subst h10
    simp only [decodeState]
    unfold decode
    rw [if_neg (by decide), if_neg (by decide), if_neg (by decide), if_neg (by decide),
      if_neg (by decide), if_neg (by decide), if_neg (by decide), if_neg (by decide),
      if_neg (by decide), if_neg (by decide), if_pos (by decide)]
    first
    | (split_ifs <;> simp [supportedOpcode, topOpcodes])
    | simp [supportedOpcode, topOpcodes]

  by_cases h11 : opcode = 0x47
  · subst h11
    simp only [decodeState]
    unfold decode
    rw [if_neg (by decide), if_neg (by decide), if_neg (by decide), if_neg (by decide),
      if_neg (by decide), if_neg (by decide), if_neg (by decide), if_neg (by decide),
      if_neg (by decide), if_neg (by decide), if_neg (by decide), if_pos (by decide)]
    first
    | (split_ifs <;> simp [supportedOpcode, topOpcodes])
    | simp [supportedOpcode, topOpcodes]

  by_cases h12 : opcode = 0x73
  · subst h12
    simp only [decodeState]
    unfold decode
    rw [if_neg (by decide), if_neg (by decide), if_neg (by decide), if_neg (by decide),
      if_neg (by decide), if_neg (by decide), if_neg (by decide), if_neg (by decide),
      if_neg (by decide), if_neg (by decide), if_neg (by decide), if_neg (by decide),
      if_pos (by decide)]
    first
    | (split_ifs <;> simp [supportedOpcode, topOpcodes])
    | simp [supportedOpcode, topOpcodes]

  by_cases h13 : opcode = 0x77
  · subst h13
    simp only [decodeState]
    unfold decode
    rw [if_neg (by decide), if_neg (by decide), if_neg (by decide), if_neg (by decide),
      if_neg (by decide), if_neg (by decide), if_neg (by decide), if_neg (by decide),
      if_neg (by decide), if_neg (by decide), if_neg (by decide), if_neg (by decide),
      if_neg (by decide), if_pos (by decide)]
    first
    | (split_ifs <;> simp [supportedOpcode, topOpcodes])
    | simp [supportedOpcode, topOpcodes]

  by_cases h14 : opcode = 0xCB
  · subst h14
    simp only [decodeState]
    unfold decode
    rw [if_neg (by decide), if_neg (by decide), if_neg (by decide), if_neg (by decide),
      if_neg (by decide), if_neg (by decide), if_neg (by decide), if_neg (by decide),
      if_neg (by decide), if_neg (by decide), if_neg (by decide), if_neg (by decide),
      if_neg (by decide), if_neg (by decide), if_pos (by decide)]
    rw [show supportedOpcode 0xCB (read8 st (st.pc + 1))
        = cbSupported (read8 st (st.pc + 1)) from rfl,
      ← decodeCB_isSome st]
    cases hcb : decodeCB st <;> simp [hcb, Except.map, Except.toOption]

  by_cases h15 : opcode = 0x66
  · subst h15
    simp only [decodeState]
    unfold decode
    rw [if_neg (by decide), if_neg (by decide), if_neg (by decide), if_neg (by decide),
      if_neg (by decide), if_neg (by decide), if_neg (by decide), if_neg (by decide),
      if_neg (by decide), if_neg (by decide), if_neg (by decide), if_neg (by decide),
      if_neg (by decide), if_neg (by decide), if_neg (by decide), if_pos (by decide)]
    first
    | (split_ifs <;> simp [supportedOpcode, topOpcodes])
    | simp [supportedOpcode, topOpcodes]

  by_cases h16 : opcode = 0xAF
  · subst h16
    simp only [decodeState]
    unfold decode
    rw [if_neg (by decide), if_neg (by decide), if_neg (by decide), if_neg (by decide),
      if_neg (by decide), if_neg (by decide), if_neg (by decide), if_neg (by decide),
      if_neg (by decide), if_neg (by decide), if_neg (by decide), if_neg (by decide),
      if_neg (by decide), if_neg (by decide), if_neg (by decide), if_neg (by decide),
      if_pos (by decide)]
    first
    | (split_ifs <;> simp [supportedOpcode, topOpcodes])
    | simp [supportedOpcode, topOpcodes]

  by_cases h17 : opcode = 0xCC
  · subst h17
    simp only [decodeState]
    unfold decode
    rw [if_neg (by decide), if_neg (by decide), if_neg (by decide), if_neg (by decide),
      if_neg (by decide), if_neg (by decide), if_neg (by decide), if_neg (by decide),
      if_neg (by decide), if_neg (by decide), if_neg (by decide), if_neg (by decide),
      if_neg (by decide), if_neg (by decide), if_neg (by decide), if_neg (by decide),
      if_neg (by decide), if_pos (by decide)]
    first
    | (split_ifs <;> simp [supportedOpcode, topOpcodes])
    | simp [supportedOpcode, topOpcodes]

  by_cases h18 : opcode = 0xCE
  · subst h18
    simp only [decodeState]
    unfold decode
    rw [if_neg (by decide), if_neg (by decide), if_neg (by decide), if_neg (by decide),
      if_neg (by decide), if_neg (by decide), if_neg (by decide), if_neg (by decide),
      if_neg (by decide), if_neg (by decide), if_neg (by decide), if_neg (by decide),
      if_neg (by decide), if_neg (by decide), if_neg (by decide), if_neg (by decide),
      if_neg (by decide), if_neg (by decide), if_pos (by decide)]
    first
    | (split_ifs <;> simp [supportedOpcode, topOpcodes])
    | simp [supportedOpcode, topOpcodes]

  by_cases h19 : opcode = 0xE0
  · subst h19
    simp only [decodeState]
    unfold decode
    rw [if_neg (by decide), if_neg (by decide), if_neg (by decide), if_neg (by decide),
      if_neg (by decide), if_neg (by decide), if_neg (by decide), if_neg (by decide),
      if_neg (by decide), if_neg (by decide), if_neg (by decide), if_neg (by decide),
      if_neg (by decide), if_neg (by decide), if_neg (by decide), if_neg (by decide),
      if_neg (by decide), if_neg (by decide), if_neg (by decide), if_pos (by decide)]
    first
    | (split_ifs <;> simp [supportedOpcode, topOpcodes])
    | simp [supportedOpcode, topOpcodes]

  by_cases h20 : opcode = 0xE2
  · subst h20
    simp only [decodeState]
    unfold decode
    rw [if_neg (by decide), if_neg (by decide), if_neg (by decide), if_neg (by decide),
      if_neg (by decide), if_neg (by decide), if_neg (by decide), if_neg (by decide),
      if_neg (by decide), if_neg (by decide), if_neg (by decide), if_neg (by decide),
      if_neg (by decide), if_neg (by decide), if_neg (by decide), if_neg (by decide),
      if_neg (by decide), if_neg (by decide), if_neg (by decide), if_neg (by decide),
      if_pos (by decide)]
    first
    | (split_ifs <;> simp [supportedOpcode, topOpcodes])
    | simp [supportedOpcode, topOpcodes]

  by_cases h21 : opcode = 0xE5
  · subst h21
    simp only [decodeState]
    unfold decode
    rw [if_neg (by decide), if_neg (by decide), if_neg (by decide), if_neg (by decide),
      if_neg (by decide), if_neg (by decide), if_neg (by decide), if_neg (by decide),
      if_neg (by decide), if_neg (by decide), if_neg (by decide), if_neg (by decide),
      if_neg (by decide), if_neg (by decide), if_neg (by decide), if_neg (by decide),
      if_neg (by decide), if_neg (by decide), if_neg (by decide), if_neg (by decide),
      if_neg (by decide), if_pos (by decide)]
    first
    | (split_ifs <;> simp [supportedOpcode, topOpcodes])
    | simp [supportedOpcode, topOpcodes]

  simp only [decodeState]
  unfold decode
  rw [if_neg h0, if_neg h1, if_neg h2, if_neg h3, if_neg h4, if_neg h5, if_neg h6,
    if_neg h7, if_neg h8, if_neg h9, if_neg h10, if_neg h11, if_neg h12, if_neg h13,
    if_neg h14, if_neg h15, if_neg h16, if_neg h17, if_neg h18, if_neg h19, if_neg h20,
    if_neg h21]
  simp only [supportedOpcode, topOpcodes, if_neg h14]
  simp only [List.contains_cons, List.contains_nil, Bool.or_false]
  simp only [Option.isSome_none]
  symm
  simp only [Bool.or_eq_false_iff, beq_eq_false_iff_ne, ne_eq]
  omega

set_option maxRecDepth 8192 in
/-- C8: executing opcode 0x03 (INC BC) then 0x0B (DEC BC), or 0x0B then
0x03, leaves BC at its original value for every BC in the u16 range,
including across the 0x0000/0xFFFF wrap boundary. -/
theorem C8_inc_dec_bc_roundtrip (st : CPUState) (hbc : st.bc < 65536) :
    ((decodeState st 0x03).bind (fun s1 => decodeState s1 0x0B)).map CPUState.bc
        = some st.bc ∧
      ((decodeState st 0x0B).bind (fun s1 => decodeState s1 0x03)).map CPUState.bc
        = some st.bc := by
  have e1 : decodeState st 0x03
      = some { st with bc := (st.bc + 1) % 65536, pc := (st.pc + 1) % 65536 } := rfl
  have e2 : decodeState st 0x0B
      = some { st with bc := (st.bc + 65535) % 65536, pc := (st.pc + 1) % 65536 } := rfl
  have e3 : ∀ b p : Nat,
      decodeState { st with bc := b, pc := p } 0x0B
        = some { st with bc := (b + 65535) % 65536, pc := (p + 1) % 65536 } :=
    fun b p => rfl
  have e4 : ∀ b p : Nat,
      decodeState { st with bc := b, pc := p } 0x03
        = some { st with bc := (b + 1) % 65536, pc := (p + 1) % 65536 } :=
    fun b p => rfl
  constructor
  · rw [e1]
    simp only [Option.some_bind]
    rw [e3]
    simp only [Option.map_some', Option.some.injEq]
    omega
  · rw [e2]
    simp only [Option.some_bind]
    rw [e4]
    simp only [Option.map_some', Option.some.injEq]
    omega

set_option maxRecDepth 8192 in
/-- C8 witness: the round trip evaluated at BC = 0xFFFF, the wrap boundary. -/
theorem C8_inc_dec_bc_roundtrip_witness :
    wrapState.bc < 65536 ∧
      (((decodeState wrapState 0x03).bind
            (fun s1 => decodeState s1 0x0B)).map CPUState.bc = some wrapState.bc ∧
        ((decodeState wrapState 0x0B).bind
            (fun s1 => decodeState s1 0x03)).map CPUState.bc = some wrapState.bc) :=
  ⟨by decide, C8_inc_dec_bc_roundtrip wrapState (by decide)⟩


set_option maxRecDepth 8192 in
/-- C10: INC C never clears the Zero flag — whenever Zero is set and C is
not 0xFF (so the incremented result is nonzero), Zero is still set after
executing opcode 0x0C; the stale flag is left in place. -/
theorem C10_inc_c_stale_zero (st : CPUState) (hz : get_flag st .Z = 1)
    (hc : get_low_byte st.bc ≠ 0xFF) :
    (decodeState st 0x0C).map (fun s => get_flag s .Z) = some 1 := by
  have e : decodeState st 0x0C = some
      { st with
        af := if (get_low_byte st.bc) &&& 0x0F = 0x0F then
            set_flag_af (clear_flag_af
              (if (get_low_byte st.bc + 1) % 256 = 0 then set_flag_af st.af .Z else st.af)
              .N) .H
          else
            clear_flag_af (clear_flag_af
              (if (get_low_byte st.bc + 1) % 256 = 0 then set_flag_af st.af .Z else st.af)
              .N) .H,
        bc := replace_low_byte st.bc ((get_low_byte st.bc + 1) % 256),
        pc := (st.pc + 1) % 65536 } := rfl
  have hcle : get_low_byte st.bc ≤ 255 := Nat.and_le_right
  have hres : ¬ ((get_low_byte st.bc + 1) % 256 = 0) := by omega
  have hz7 : st.af.testBit 7 = true := by
    rw [get_flag, get_flag_af_eq_toNat] at hz
    simp only [Flag.bit] at hz
    cases h : st.af.testBit 7
    · rw [h] at hz
      simp at hz
    · rfl
  rw [e]
  simp only [Option.map_some', Option.some.injEq, get_flag, get_flag_af_eq_toNat]
  split_ifs <;>
    simp_all [set_flag_af_testBit, clear_flag_af_testBit, Flag.bit]

set_option maxRecDepth 8192 in
/-- C10 witness: evaluated at a state with Zero set and C = 0. -/
theorem C10_inc_c_stale_zero_witness :
    get_flag incCState .Z = 1 ∧ get_low_byte incCState.bc ≠ 0xFF ∧
      (decodeState incCState 0x0C).map (fun s => get_flag s .Z) = some 1 :=
  ⟨by decide, by decide, C10_inc_c_stale_zero incCState (by decide) (by decide)⟩


/-- C7: every successful decode step preserves the flag-packing invariant:
if the bottom four bits of AF are zero before executing a supported opcode,
they are zero afterwards. -/
theorem C7_af_low_nibble_invariant (st s : CPUState) (opcode : Nat)
    (instr : Instruction) (hnib : st.af &&& 0x000F = 0)
    (h : decode st opcode = .ok (s, instr)) : s.af &&& 0x000F = 0 := by
  rw [show (0x000F : Nat) = 15 from rfl] at hnib ⊢
  rw [decode_af_and15 st s opcode instr h]
  exact hnib

/-- C7 witness: the invariant transported across a NOP from the freshly
constructed CPU state. -/
theorem C7_af_low_nibble_invariant_witness :
    (CPU.new zeroMem).af &&& 0x000F = 0 ∧
      ({ CPU.new zeroMem with pc := 1 } : CPUState).af &&& 0x000F = 0 :=
  ⟨rfl, C7_af_low_nibble_invariant (CPU.new zeroMem)
    { CPU.new zeroMem with pc := 1 } 0x00 .NOP rfl rfl⟩

/-- C1: ADC A,n8 at A = 0x01, n8 = 0xFF, Carry = 0. The true 9-bit sum is
0x100 > 0xFF, so the claim requires Carry = 1; the code computes the carry
check from `a + a` (the immediate is shadowed by a copy of A) and leaves
Carry = 0. A wraps to 0 and PC advances by 2 as claimed. -/
theorem C1_adc_carry_uses_a_plus_a :
    (decodeState adcBugState 0xCE).map
        (fun s => (get_high_byte s.af, get_flag s .C, s.pc))
      = some (0, 0, 2) := by decide

/-- C2: the CB bit-test at BIT 0,B with B = 0x01: the tested bit is 1, so
the claim requires Zero = 0; the code sets Zero = 1 (the comparison is
inverted). Subtract, Half-Carry and PC behave as claimed. -/
theorem C2_bit_test_zero_inverted :
    (decodeState bitBugState 0xCB).map
        (fun s => (get_flag s .Z, get_flag s .N, get_flag s .H, s.pc))
      = some (1, 0, 1, 2) := by decide

/-- C3: the two LDH stores. LDH [a8],A with n8 = 0xAB stores A at 0xFFAB
as claimed but advances PC by 1, not 2; LDH [C],A with C = 0x01 stores A at
0xFF81 (the High-RAM base 0xFF80 plus C), not at 0xFF00 + C = 0xFF01. -/
theorem C3_ldh_store_divergences :
    ((decodeState ldhA8State 0xE0).map (fun s => (s.mem 0xFFAB, s.pc))
        = some (0xFF, 1)) ∧
      ((decodeState ldhCState 0xE2).map
          (fun s => (s.mem 0xFF81, s.mem 0xFF01, s.pc))
        = some (0xFF, 0, 1)) ∧
      memoryMap.h_ram.start = 0xFF80 := by decide

/-- C4: LD DE,n16 with operand bytes 0xCD, 0xAB loads DE = 0xABCD as
claimed but advances PC by 1, not 3 (LD HL,n16 and LD SP,n16 advance by 3,
also shown here). -/
theorem C4_ld_de_n16_pc_bug :
    ((decodeState ldDEState 0x11).map (fun s => (s.de, s.pc)) = some (0xABCD, 1)) ∧
      ((decodeState ldDEState 0x21).map (fun s => (s.hl, s.pc)) = some (0xABCD, 3)) ∧
      ((decodeState ldDEState 0x31).map (fun s => (s.sp, s.pc)) = some (0xABCD, 3)) := by
  decide

/-- C5 counterexample: `CPU::new` initializes PC to 0, not to the claimed
fixed entry address 0x0104. -/
theorem C5_pc_not_entry_address :
    (CPU.new zeroMem).pc = 0 ∧ (CPU.new zeroMem).pc ≠ 0x0104 := by decide

/-- C5 amended: CPU construction initializes PC and all other register
pairs (AF, BC, DE, HL, SP) to zero. -/
theorem C5_new_all_registers_zero (mem : Nat → Nat) :
    (CPU.new mem).af = 0 ∧ (CPU.new mem).bc = 0 ∧ (CPU.new mem).de = 0 ∧
      (CPU.new mem).hl = 0 ∧ (CPU.new mem).sp = 0 ∧ (CPU.new mem).pc = 0 :=
  ⟨rfl, rfl, rfl, rfl, rfl, rfl⟩

set_option maxRecDepth 100000 in
/-- C9: on the all-zero 16-byte tile every decoded 2-bit index is 0, so the
claim requires all 64 pixels to be the palette color 0xE0F8D0 — in
particular output byte 48 (pixel 16's red channel) should be 0xE0. The
code writes each input byte's pixels to the same position `i * 3`, so only
the first 48 bytes are ever written: byte 0 is 0xE0 but byte 48 is 0. -/
theorem C9_tile_decode_write_position_bug :
    (map_tile_pixels (List.replicate 16 0)).length = 192 ∧
      (map_tile_pixels (List.replicate 16 0)).getD 0 0 = 0xE0 ∧
      (map_tile_pixels (List.replicate 16 0)).getD 48 0 = 0 := by decide


end GB
